import Mathlib

/-!
Verification of the interactive-mcp cmd-input session protocol.

Shallow embedding of the cmd-input component: the Launch Target Resolver
(`getTerminalCommand`), the Session Coordinator event loop of
`getCmdWindowInput` (answer-channel watcher, heartbeat liveness monitor,
timeout timer, process exit/error observers, `cleanupAndResolve`), and the
Resource Janitor (`cleanupResources`).

Modelling conventions:
* Node `os.platform()` results are plain strings compared against literals
  (`"darwin"`, `"linux"`, `"win32"`), exactly as in the source.
* Probing a terminal on `PATH` (`execSync("which ...")` wrapped in
  `try/catch` with suppressed stdio) is modelled as a total boolean oracle
  `avail : String → Bool`; a `false` result is the caught failure, so an
  absent candidate can neither print nor throw.
* The Coordinator is modelled as a state machine driven by timed events.
  Each JavaScript callback activation is one atomic step, except that the
  answer-channel watcher callback is split into its two real halves: the
  `fs.watch` notification (which starts an asynchronous file read) and the
  later completion of that read (`pendingReads` counts reads in flight).
  `cleanupAndResolve` is one atomic step: it disarms all triggers, then runs
  `cleanupResources`, then resolves the promise, in that order with no
  interleaving point that matters to the claims.
* The promise `resolve` is idempotent (JavaScript promise semantics): the
  first call fixes `resolvedWith`; later calls only bump `resolveCalls`.
* Times are naturals, milliseconds since `startTime` (session creation).
-/

namespace InteractiveMcp

/-! The Launch Target Resolver. -/

/-- A launch specification: executable (or full shell command line),
argument vector, and whether to run through a shell
(`shell: terminalCmd.shell || false` at the spawn site). -/
structure LaunchSpec where
  command : String
  args : List String
  shell : Bool := false
deriving Repr, DecidableEq

/-- Embedding of `path.basename` (posix): last path component, ignoring trailing
separators (for the degenerate all-separator or empty path the input is
returned, matching Node on `"/"` and `""`). -/
def basename (p : String) : String :=
  let rev := (p.data.reverse).dropWhile (fun c => c = '/')
  let name := (rev.takeWhile (fun c => c ≠ '/')).reverse
  if name.isEmpty then p else String.mk name

/-- ASCII lowering of one character; the terminal names the Resolver
compares against are all ASCII, so this matches `String.prototype.toLowerCase`
on every input the claims involve. -/
def lowerChar (c : Char) : Char :=
  if 'A' ≤ c ∧ c ≤ 'Z' then Char.ofNat (c.toNat + 32) else c

/-- Embedding of `.toLowerCase()` restricted to ASCII. -/
def toLowerStr (s : String) : String :=
  String.mk (s.data.map lowerChar)

/-- Replace every occurrence of the single character `target` by the
character sequence `repl` (one `.replace(/x/g, y)` pass). -/
def replaceChar (target : Char) (repl : List Char) : List Char → List Char
  | [] => []
  | c :: rest =>
      if c = target then repl ++ replaceChar target repl rest
      else c :: replaceChar target repl rest

/-- The escaping applied before splicing a command into an AppleScript
string: `.replace(/\\/g, "\\\\")` followed by `.replace(/"/g, "\\\"")`. -/
def appleScriptEscape (s : String) : String :=
  String.mk (replaceChar '"' ['\\', '"'] (replaceChar '\\' ['\\', '\\'] s.data))

/-- Whitespace for `String.prototype.trim` (the ASCII whitespace class;
the Unicode additions never arise in the claims). -/
def isJsWhitespace (c : Char) : Bool :=
  c = ' ' ∨ c = '\t' ∨ c = '\n' ∨ c = '\r' ∨ c = '\x0b' ∨ c = '\x0c'

/-- Embedding of `.trim()`: strip surrounding whitespace. -/
def jsTrim (s : String) : String :=
  String.mk (((s.data.dropWhile isJsWhitespace).reverse.dropWhile
    isJsWhitespace).reverse)

/-- The composed command run inside the terminal:
`node "<uiScriptPath>" "<sessionId>" "<tempDir>"`. -/
def nodeCommandFor (uiScriptPath sessionId tempDir : String) : String :=
  "node \"" ++ uiScriptPath ++ "\" \"" ++ sessionId ++ "\" \"" ++ tempDir ++ "\""

/-- The osascript invocation used for iTerm2 on macOS. -/
def itermOsascript (nodeCommand : String) : String :=
  "osascript -e \x27tell application \"iTerm2\" to create window with default profile command \""
    ++ appleScriptEscape nodeCommand ++ "\"\x27"

/-- The osascript invocation used for Terminal.app on macOS. -/
def terminalAppOsascript (nodeCommand : String) : String :=
  "osascript -e \x27tell application \"Terminal\" to activate\x27 -e \x27tell application \"Terminal\" to do script \""
    ++ appleScriptEscape ("exec " ++ nodeCommand ++ "; exit 0") ++ "\"\x27"

/-- The ordered Linux candidate list with each candidate's argument
template, exactly as in the source `terminals` array. -/
def linuxTerminals (nodeCommand : String) : List (String × List String) :=
  [ ("kitty",
      ["--title", "Interactive MCP Input", "--", "sh", "-c", nodeCommand]),
    ("alacritty",
      ["--title", "Interactive MCP Input", "-e", "sh", "-c", nodeCommand]),
    ("gnome-terminal",
      ["--title=Interactive MCP Input", "--", "sh", "-c", nodeCommand]),
    ("konsole",
      ["--title", "Interactive MCP Input", "-e", "sh", "-c", nodeCommand]),
    ("xterm",
      ["-title", "Interactive MCP Input", "-e", "sh", "-c", nodeCommand]) ]

/-- The probe loop over the Linux candidates: return the spec of the first
available candidate, `none` when every probe fails. -/
def probeLinuxTerminals (avail : String → Bool) :
    List (String × List String) → Option LaunchSpec
  | [] => none
  | (cmd, args) :: rest =>
      if avail cmd then some { command := cmd, args := args, shell := false }
      else probeLinuxTerminals avail rest

/-- Embedding of `getTerminalCommand` from the source, with the executable-availability
probe abstracted as `avail` and the composed node command passed in. -/
def getTerminalCommand (platform : String) (terminalEnv : Option String)
    (avail : String → Bool) (nodeCommand : String) : Option LaunchSpec :=
  match terminalEnv with
  | some env =>
      let terminalName := toLowerStr (basename env)
      if terminalName = "kitty" then
        some { command := env,
               args := ["--title", "Interactive MCP Input", "--", "sh", "-c",
                        nodeCommand],
               shell := false }
      else if terminalName = "alacritty" then
        some { command := env,
               args := ["--title", "Interactive MCP Input", "-e", "sh", "-c",
                        nodeCommand],
               shell := false }
      else if terminalName = "wezterm" then
        some { command := env,
               args := ["start", "--", "sh", "-c", nodeCommand],
               shell := false }
      else if (terminalName = "iterm2" ∨ terminalName = "iterm")
          ∧ platform = "darwin" then
        some { command := itermOsascript nodeCommand, args := [], shell := true }
      else
        some { command := env, args := ["-e", "sh", "-c", nodeCommand],
               shell := false }
  | none =>
      if platform = "darwin" then
        some { command := terminalAppOsascript nodeCommand, args := [],
               shell := true }
      else if platform = "linux" then
        probeLinuxTerminals avail (linuxTerminals nodeCommand)
      else if platform = "win32" then
        some { command := "cmd",
               args := ["/c", "start", "cmd", "/k", nodeCommand],
               shell := false }
      else
        none

/-! The Session Coordinator.

State of one session inside the promise executor of `getCmdWindowInput`.
`watcherArmed`, `intervalArmed`, `timeoutArmed` mirror the nullable
`watcher`, `heartbeatInterval`, `timeoutHandle` variables;
`heartbeatFileSeen` mirrors the flag of the same name; `pendingReads`
counts answer-channel reads started by the watcher callback and not yet
completed; the three `*RemoveAttempted` flags record that
`cleanupResources` has attempted the unlink of that channel file;
`resolvedWith` is the value the promise settled on (first `resolve` call
wins, per promise semantics); `resolveCalls` and `cleanupRuns` count the
calls to `resolve` and to `cleanupResources`. -/

structure CoordState where
  watcherArmed : Bool
  intervalArmed : Bool
  timeoutArmed : Bool
  heartbeatFileSeen : Bool
  pendingReads : Nat
  optionsRemoveAttempted : Bool
  answerRemoveAttempted : Bool
  heartbeatRemoveAttempted : Bool
  resolvedWith : Option String
  resolveCalls : Nat
  cleanupRuns : Nat
deriving Repr, DecidableEq

/-- The state right after setup succeeds: process spawned, answer file
created empty, watcher + heartbeat interval + timeout timer all armed,
heartbeat never seen, nothing resolved, no cleanup yet. -/
def armedState : CoordState :=
  { watcherArmed := true, intervalArmed := true, timeoutArmed := true,
    heartbeatFileSeen := false, pendingReads := 0,
    optionsRemoveAttempted := false, answerRemoveAttempted := false,
    heartbeatRemoveAttempted := false,
    resolvedWith := none, resolveCalls := 0, cleanupRuns := 0 }

/-- Embedding of `cleanupResources`: best-effort unlink of the answer, heartbeat and
options channel files (each wrapped in a swallowing catch, combined with
`Promise.allSettled`, so it never throws). -/
def cleanupResources (s : CoordState) : CoordState :=
  { s with answerRemoveAttempted := true,
           heartbeatRemoveAttempted := true,
           optionsRemoveAttempted := true,
           cleanupRuns := s.cleanupRuns + 1 }

/-- One call of the promise executor's `resolve`: the first call fixes the
outcome, later calls are absorbed. -/
def resolvePromise (response : String) (s : CoordState) : CoordState :=
  { s with resolveCalls := s.resolveCalls + 1,
           resolvedWith := match s.resolvedWith with
                           | some r => some r
                           | none => some response }

/-- Embedding of `cleanupAndResolve(response)`: synchronously clear the heartbeat
interval, close the watcher and clear the timeout timer, then run
`cleanupResources`, then `resolve(response)`. Note: it performs no
already-resolved check. -/
def cleanupAndResolve (response : String) (s : CoordState) : CoordState :=
  resolvePromise response
    (cleanupResources
      { s with intervalArmed := false, watcherArmed := false,
               timeoutArmed := false })

/-- Outcome of one `fsPromises.stat` of the heartbeat file inside the
interval callback: file present with `now - mtime = ageMs`, `ENOENT`, or
any other inspection error. -/
inductive StatResult
  | found (ageMs : Nat)
  | enoent
  | otherError
deriving Repr, DecidableEq

/-- The asynchronous events that can reach the session. `watchEvent` is an
`fs.watch` notification with its `eventType`; `readDone`/`readFail` is the
completion of an answer-channel read started by a previous `"change"`
notification; `pollStat` is one heartbeat-interval tick together with the
result of its stat; `timeoutFire` is the one-shot timer; `procExit` and
`procError` are the child process `exit`/`error` events. -/
inductive Ev
  | watchEvent (eventType : String)
  | readDone (data : String)
  | readFail
  | pollStat (r : StatResult)
  | timeoutFire
  | procExit (code : Int)
  | procError
deriving Repr, DecidableEq

/-- A timed event: `time` is in milliseconds since `startTime`. -/
structure TEvent where
  time : Nat
  ev : Ev
deriving Repr, DecidableEq

/-- One atomic callback activation. `none` means the event cannot occur in
this state (its trigger is disarmed, or no read is in flight). -/
def step (s : CoordState) (e : TEvent) : Option CoordState :=
  match e.ev with
  | .watchEvent ty =>
      if s.watcherArmed then
        if ty = "change" then some { s with pendingReads := s.pendingReads + 1 }
        else some s
      else none
  | .readDone data =>
      if s.pendingReads > 0 then
        let s := { s with pendingReads := s.pendingReads - 1 }
        if data ≠ "" then some (cleanupAndResolve (jsTrim data) s)
        else some s
      else none
  | .readFail =>
      if s.pendingReads > 0 then
        some (cleanupAndResolve "" { s with pendingReads := s.pendingReads - 1 })
      else none
  | .pollStat r =>
      if s.intervalArmed then
        match r with
        | .found ageMs =>
            if ageMs > 3000 then some (cleanupAndResolve "" s)
            else some { s with heartbeatFileSeen := true }
        | .enoent =>
            if s.heartbeatFileSeen then some (cleanupAndResolve "" s)
            else if e.time > 7000 then some (cleanupAndResolve "" s)
            else some s
        | .otherError => some (cleanupAndResolve "" s)
      else none
  | .timeoutFire =>
      if s.timeoutArmed then some (cleanupAndResolve "" s) else none
  | .procExit code =>
      if code ≠ 0 ∧ (s.watcherArmed ∨ s.timeoutArmed) then
        some (cleanupAndResolve "" s)
      else some s
  | .procError =>
      if s.watcherArmed ∨ s.timeoutArmed then some (cleanupAndResolve "" s)
      else some s

/-- Run a sequence of events. -/
def runTrace (s : CoordState) : List TEvent → Option CoordState
  | [] => some s
  | e :: rest =>
      match step s e with
      | some s2 => runTrace s2 rest
      | none => none

/-! The event schedule.

Here `setupDelay` is the time from `startTime` to the end of setup (spawn, the
500 ms pre-watch sleep, arming of the three triggers). The heartbeat
interval then ticks every 1500 ms; the timeout timer fires exactly
`timeoutSeconds * 1000 + 5000` ms after arming. -/

structure Config where
  timeoutSeconds : Nat
  setupDelay : Nat
deriving Repr, DecidableEq

/-- Instant at which the one-shot timeout timer fires:
`setTimeout(..., timeoutSeconds * 1000 + 5000)` armed at the end of setup. -/
def timeoutFireTime (c : Config) : Nat :=
  c.setupDelay + c.timeoutSeconds * 1000 + 5000

/-- The heartbeat-interval tick instants: `setupDelay + 1500 * k`, `k ≥ 1`. -/
def isPollTime (c : Config) (t : Nat) : Bool :=
  c.setupDelay < t ∧ (t - c.setupDelay) % 1500 = 0

/-- Scheduling constraint of a single event. -/
def evTimeOK (c : Config) (e : TEvent) : Bool :=
  match e.ev with
  | .timeoutFire => e.time = timeoutFireTime c
  | .pollStat _ => isPollTime c e.time
  | _ => c.setupDelay ≤ e.time

/-- Event times never decrease along a trace. -/
def timesMono : List TEvent → Bool
  | [] => true
  | [_] => true
  | e1 :: e2 :: rest => e1.time ≤ e2.time && timesMono (e2 :: rest)

/-- A trace the event loop and timers can actually deliver. -/
def validTrace (c : Config) (tr : List TEvent) : Bool :=
  tr.all (evTimeOK c) && timesMono tr

/-! The setup paths.

The body of `getCmdWindowInput` before the triggers are armed: write the
options file, ask the Resolver for a terminal command (throwing when it
returns null), spawn. Any failure is caught by the setup `catch`, which
runs `cleanupResources` and then resolves with the empty string. -/

/-- The state produced by the setup `catch` block: nothing was armed,
`cleanupResources` ran once, then `resolve("")`. -/
def setupFailedState : CoordState :=
  resolvePromise ""
    (cleanupResources
      { watcherArmed := false, intervalArmed := false, timeoutArmed := false,
        heartbeatFileSeen := false, pendingReads := 0,
        optionsRemoveAttempted := false, answerRemoveAttempted := false,
        heartbeatRemoveAttempted := false,
        resolvedWith := none, resolveCalls := 0, cleanupRuns := 0 })

/-- The whole operation: setup (options write, Resolver, spawn), then the
armed event loop driven by `tr`. `writeOk` and `spawnOk` abstract the two
fallible I/O steps; `terminalCmd` is the Resolver's answer. When setup
fails the trace is irrelevant: the session is already resolved. -/
def getCmdWindowInputRun (writeOk : Bool) (terminalCmd : Option LaunchSpec)
    (spawnOk : Bool) (tr : List TEvent) : Option CoordState :=
  if writeOk then
    match terminalCmd with
    | none => some setupFailedState
    | some _ =>
        if spawnOk then runTrace armedState tr
        else some setupFailedState
  else some setupFailedState

/-- All three per-session channel files have had their deletion attempted. -/
def allChannelsRemoved (s : CoordState) : Prop :=
  s.optionsRemoveAttempted = true ∧ s.answerRemoveAttempted = true
    ∧ s.heartbeatRemoveAttempted = true

/-- Event `e` takes one of the internal failure paths in state `s` (read
failure, stale heartbeat, heartbeat lost or never appeared after grace,
other heartbeat inspection error, timeout, nonzero exit, process error). -/
def isFailureEvent (s : CoordState) (e : TEvent) : Bool :=
  match e.ev with
  | .readFail => s.pendingReads > 0
  | .pollStat (.found ageMs) => s.intervalArmed ∧ ageMs > 3000
  | .pollStat .enoent =>
      s.intervalArmed ∧ (s.heartbeatFileSeen ∨ e.time > 7000)
  | .pollStat .otherError => s.intervalArmed
  | .timeoutFire => s.timeoutArmed
  | .procExit code => code ≠ 0 ∧ (s.watcherArmed ∨ s.timeoutArmed)
  | .procError => s.watcherArmed ∨ s.timeoutArmed
  | _ => false

/-- The session, stepped on `e`, resolves with the empty answer, having run
the Janitor in the same step. -/
def resolvesEmptyFrom (s : CoordState) (e : TEvent) : Prop :=
  ∃ s2, step s e = some s2 ∧ s2.resolvedWith = some ""
    ∧ s2.cleanupRuns = s.cleanupRuns + 1 ∧ allChannelsRemoved s2

/-- The first heartbeat-poll instant strictly past the 7000 ms grace
period, for a poll schedule `setupDelay + 1500 * k`. -/
def firstGracePoll (c : Config) : Nat :=
  c.setupDelay + 1500 * ((7000 - c.setupDelay) / 1500 + 1)

/-! Shared lemmas. -/

lemma cleanupAndResolve_spec (r : String) (s : CoordState) :
    (cleanupAndResolve r s).resolvedWith
        = (match s.resolvedWith with | some x => some x | none => some r)
      ∧ allChannelsRemoved (cleanupAndResolve r s)
      ∧ (cleanupAndResolve r s).cleanupRuns = s.cleanupRuns + 1
      ∧ (cleanupAndResolve r s).watcherArmed = false
      ∧ (cleanupAndResolve r s).intervalArmed = false
      ∧ (cleanupAndResolve r s).timeoutArmed = false := by
  simp [cleanupAndResolve, cleanupResources, resolvePromise, allChannelsRemoved]

/-- All coordinate fields an observer cares about are unchanged. -/
def frameEq (s s2 : CoordState) : Prop :=
  s2.resolvedWith = s.resolvedWith
    ∧ s2.optionsRemoveAttempted = s.optionsRemoveAttempted
    ∧ s2.answerRemoveAttempted = s.answerRemoveAttempted
    ∧ s2.heartbeatRemoveAttempted = s.heartbeatRemoveAttempted
    ∧ s2.cleanupRuns = s.cleanupRuns
    ∧ s2.resolveCalls = s.resolveCalls
    ∧ s2.watcherArmed = s.watcherArmed
    ∧ s2.intervalArmed = s.intervalArmed
    ∧ s2.timeoutArmed = s.timeoutArmed

/-- The step reached `cleanupAndResolve r`: outcome fixed to the previous
outcome if any, else `r`; all triggers disarmed; Janitor ran once more. -/
def resolvedLike (s s2 : CoordState) (r : String) : Prop :=
  s2.resolvedWith
      = (match s.resolvedWith with | some x => some x | none => some r)
    ∧ allChannelsRemoved s2
    ∧ s2.cleanupRuns = s.cleanupRuns + 1
    ∧ s2.watcherArmed = false
    ∧ s2.intervalArmed = false
    ∧ s2.timeoutArmed = false

/-- Every step either leaves the observable session state framed, or is a
`cleanupAndResolve` step. -/
lemma step_shape (s s2 : CoordState) (e : TEvent) (h : step s e = some s2) :
    frameEq s s2 ∨ ∃ r, resolvedLike s s2 r := by
  obtain ⟨t, ev⟩ := e
  cases ev with
  | watchEvent ty =>
      simp only [step] at h
      split_ifs at h with h1 h2 <;> obtain rfl := Option.some.inj h
      · exact Or.inl (by simp [frameEq])
      · exact Or.inl (by simp [frameEq])
  | readDone data =>
      simp only [step] at h
      split_ifs at h with h1 h2 <;> obtain rfl := Option.some.inj h
      · refine Or.inr ⟨jsTrim data, ?_⟩
        simpa [resolvedLike] using
          (cleanupAndResolve_spec (jsTrim data)
            { s with pendingReads := s.pendingReads - 1 })
      · exact Or.inl (by simp [frameEq])
  | readFail =>
      simp only [step] at h
      split_ifs at h with h1
      obtain rfl := Option.some.inj h
      refine Or.inr ⟨"", ?_⟩
      simpa [resolvedLike] using
        (cleanupAndResolve_spec "" { s with pendingReads := s.pendingReads - 1 })
  | pollStat r =>
      cases r with
      | found ageMs =>
          simp only [step] at h
          split_ifs at h with h1 h2 <;> obtain rfl := Option.some.inj h
          · exact Or.inr ⟨"", by simpa [resolvedLike] using cleanupAndResolve_spec "" s⟩
          · exact Or.inl (by simp [frameEq])
      | enoent =>
          simp only [step] at h
          split_ifs at h with h1 h2 h3 <;> obtain rfl := Option.some.inj h
          · exact Or.inr ⟨"", by simpa [resolvedLike] using cleanupAndResolve_spec "" s⟩
          · exact Or.inr ⟨"", by simpa [resolvedLike] using cleanupAndResolve_spec "" s⟩
          · exact Or.inl (by simp [frameEq])
      | otherError =>
          simp only [step] at h
          split_ifs at h with h1
          obtain rfl := Option.some.inj h
          exact Or.inr ⟨"", by simpa [resolvedLike] using cleanupAndResolve_spec "" s⟩
  | timeoutFire =>
      simp only [step] at h
      split_ifs at h with h1
      obtain rfl := Option.some.inj h
      exact Or.inr ⟨"", by simpa [resolvedLike] using cleanupAndResolve_spec "" s⟩
  | procExit code =>
      simp only [step] at h
      split_ifs at h with h1 <;> obtain rfl := Option.some.inj h
      · exact Or.inr ⟨"", by simpa [resolvedLike] using cleanupAndResolve_spec "" s⟩
      · exact Or.inl (by simp [frameEq])
  | procError =>
      simp only [step] at h
      split_ifs at h with h1 <;> obtain rfl := Option.some.inj h
      · exact Or.inr ⟨"", by simpa [resolvedLike] using cleanupAndResolve_spec "" s⟩
      · exact Or.inl (by simp [frameEq])

/-- A settled outcome never changes across a step. -/
lemma step_outcome_stable (s s2 : CoordState) (e : TEvent) (r : String)
    (h : step s e = some s2) (hr : s.resolvedWith = some r) :
    s2.resolvedWith = some r := by
  rcases step_shape s s2 e h with hf | ⟨q, hq⟩
  · rw [hf.1, hr]
  · rw [hq.1, hr]

/-- Once resolved, the three channel removals have been attempted; steps
preserve this. -/
lemma step_clean_inv (s s2 : CoordState) (e : TEvent)
    (h : step s e = some s2)
    (hs : s.resolvedWith.isSome = true → allChannelsRemoved s) :
    s2.resolvedWith.isSome = true → allChannelsRemoved s2 := by
  intro h2
  rcases step_shape s s2 e h with hf | ⟨q, hq⟩
  · have : s.resolvedWith.isSome = true := by rw [← hf.1]; exact h2
    have hc := hs this
    exact ⟨hf.2.1.trans hc.1, hf.2.2.1.trans hc.2.1, hf.2.2.2.1.trans hc.2.2⟩
  · exact hq.2.1

/-- The cleanliness invariant along a whole trace. -/
lemma runTrace_clean_inv (tr : List TEvent) (s s2 : CoordState)
    (h : runTrace s tr = some s2)
    (hs : s.resolvedWith.isSome = true → allChannelsRemoved s) :
    s2.resolvedWith.isSome = true → allChannelsRemoved s2 := by
  induction tr generalizing s with
  | nil => simp only [runTrace] at h; obtain rfl := Option.some.inj h; exact hs
  | cons e rest ih =>
      simp only [runTrace] at h
      rcases he : step s e with _ | smid
      · rw [he] at h; cases h
      · rw [he] at h
        exact ih smid h (step_clean_inv s smid e he hs)

lemma probeLinuxTerminals_eq_find (avail : String → Bool)
    (l : List (String × List String)) :
    probeLinuxTerminals avail l
      = (l.find? (fun p => avail p.1)).map
          (fun p => { command := p.1, args := p.2, shell := false }) := by
  induction l with
  | nil => rfl
  | cons hd tl ih =>
      obtain ⟨cmdh, argsh⟩ := hd
      by_cases h : avail cmdh
      · simp [probeLinuxTerminals, List.find?_cons_of_pos, h]
      · simp only [probeLinuxTerminals]
        rw [if_neg h, ih, List.find?_cons_of_neg _ (by simpa using h)]

/-! The claims. -/

/-- C7, claim as stated is false: on Linux (≠ macOS) with the preferred
executable naming the iTerm2 family, the Resolver does **not** yield
`NoTerminalAvailable`; it falls through to the generic `-e` template. -/
theorem c7_counterexample :
    getTerminalCommand "linux" (some "/usr/bin/iterm2") (fun _ => false)
        "node ui.js"
      = some { command := "/usr/bin/iterm2",
               args := ["-e", "sh", "-c", "node ui.js"], shell := false }
    ∧ getTerminalCommand "linux" (some "/usr/bin/iterm2") (fun _ => false)
        "node ui.js" ≠ none := by
  constructor
  · decide
  · decide

/-- C7 amended: on every platform other than macOS, a configured preferred
executable whose base name identifies the iTerm2 family (`iterm` or
`iterm2`, case-insensitive) makes the Resolver fall through to the generic
`-e` execute-flag LaunchSpec (the AppleScript strategy is only taken on
macOS); it does not return `NoTerminalAvailable`. -/
theorem c7_iterm_nonmac_generic (platform env : String)
    (avail : String → Bool) (cmd : String)
    (hplat : platform ≠ "darwin")
    (hname : toLowerStr (basename env) = "iterm2"
      ∨ toLowerStr (basename env) = "iterm") :
    getTerminalCommand platform (some env) avail cmd
      = some { command := env, args := ["-e", "sh", "-c", cmd],
               shell := false } := by
  rcases hname with h | h <;> simp [getTerminalCommand, h, hplat]

/-- Witness for C7 amended at platform `linux`, preferred executable
`/Applications/iTerm.app/Contents/MacOS/iTerm2`. -/
theorem c7_iterm_nonmac_generic_witness :
    getTerminalCommand "linux"
        (some "/Applications/iTerm.app/Contents/MacOS/iTerm2")
        (fun _ => false) "node ui.js"
      = some { command := "/Applications/iTerm.app/Contents/MacOS/iTerm2",
               args := ["-e", "sh", "-c", "node ui.js"], shell := false } :=
  c7_iterm_nonmac_generic "linux"
    "/Applications/iTerm.app/Contents/MacOS/iTerm2" (fun _ => false)
    "node ui.js" (by decide) (Or.inl (by decide))

/-- C8: a configured preferred executable whose base name is `kitty`
(case-insensitive, regardless of the qualifying directory path) yields the
title-flag-plus-bare-`--`-separator template, on every platform, and that
argument vector is not the generic `-e` one. -/
theorem c8_kitty_title_separator (platform env : String)
    (avail : String → Bool) (cmd : String)
    (hname : toLowerStr (basename env) = "kitty") :
    getTerminalCommand platform (some env) avail cmd
      = some { command := env,
               args := ["--title", "Interactive MCP Input", "--", "sh", "-c",
                        cmd],
               shell := false }
    ∧ (["--title", "Interactive MCP Input", "--", "sh", "-c", cmd]
        : List String) ≠ ["-e", "sh", "-c", cmd] := by
  refine ⟨by simp [getTerminalCommand, hname], fun hcontra => ?_⟩
  simpa using congrArg List.length hcontra

/-- Witness for C8 at platform `linux`, preferred executable
`/usr/local/bin/Kitty` (mixed case, path-qualified). -/
theorem c8_kitty_title_separator_witness :
    getTerminalCommand "linux" (some "/usr/local/bin/Kitty")
        (fun _ => false) "node ui.js"
      = some { command := "/usr/local/bin/Kitty",
               args := ["--title", "Interactive MCP Input", "--", "sh", "-c",
                        "node ui.js"],
               shell := false }
    ∧ (["--title", "Interactive MCP Input", "--", "sh", "-c", "node ui.js"]
        : List String) ≠ ["-e", "sh", "-c", "node ui.js"] :=
  c8_kitty_title_separator "linux" "/usr/local/bin/Kitty" (fun _ => false)
    "node ui.js" (by decide)

/-- C9: on Linux with no preferred executable, the Resolver probes the
fixed ordered candidate list `kitty, alacritty, gnome-terminal, konsole,
xterm` and returns the LaunchSpec of the first available candidate (an
absent candidate is just skipped — the probe is a total boolean check that
cannot print or throw); if none is available it returns
`NoTerminalAvailable`. -/
theorem c9_linux_probe_order (avail : String → Bool) (cmd : String) :
    (linuxTerminals cmd).map Prod.fst
        = ["kitty", "alacritty", "gnome-terminal", "konsole", "xterm"]
    ∧ getTerminalCommand "linux" none avail cmd
        = ((linuxTerminals cmd).find? (fun p => avail p.1)).map
            (fun p => { command := p.1, args := p.2, shell := false })
    ∧ ((∀ p ∈ linuxTerminals cmd, avail p.1 = false) →
        getTerminalCommand "linux" none avail cmd = none) := by
  have hbase : getTerminalCommand "linux" none avail cmd
      = probeLinuxTerminals avail (linuxTerminals cmd) := rfl
  refine ⟨rfl, ?_, ?_⟩
  · rw [hbase, probeLinuxTerminals_eq_find]
  · intro hnone
    rw [hbase, probeLinuxTerminals_eq_find]
    have : (linuxTerminals cmd).find? (fun p => avail p.1) = none := by
      rw [List.find?_eq_none]
      intro p hp
      simp [hnone p hp]
    simp [this]

/-- Witness for C9 with no candidate available on PATH. -/
theorem c9_linux_probe_order_witness :
    getTerminalCommand "linux" none (fun _ => false) "node ui.js" = none :=
  (c9_linux_probe_order (fun _ => false) "node ui.js").2.2 (by decide)

/-- C1, claim as stated is false: an answer-channel read still in flight
when the timeout fires makes `cleanupAndResolve` run twice — the trace
below is deliverable (watch notification at 9000 ms, timer at its exact
10000 ms schedule for `timeoutSeconds = 5`, the read completing just
after), yet the final state shows `cleanupRuns = 2` and `resolveCalls = 2`
(the caller still observes the single outcome `""`, the first `resolve`). -/
theorem c1_counterexample :
    validTrace { timeoutSeconds := 5, setupDelay := 0 }
        [⟨9000, .watchEvent "change"⟩, ⟨10000, .timeoutFire⟩,
         ⟨10000, .readDone "yes"⟩] = true
    ∧ runTrace armedState
        [⟨9000, .watchEvent "change"⟩, ⟨10000, .timeoutFire⟩,
         ⟨10000, .readDone "yes"⟩]
      = some { watcherArmed := false, intervalArmed := false,
               timeoutArmed := false, heartbeatFileSeen := false,
               pendingReads := 0,
               optionsRemoveAttempted := true, answerRemoveAttempted := true,
               heartbeatRemoveAttempted := true,
               resolvedWith := some "", resolveCalls := 2,
               cleanupRuns := 2 } := by
  constructor
  · decide
  · decide

/-- C1 amended: the Coordinator reports exactly one outcome to its caller
(the promise keeps the first resolution; a settled outcome never changes),
and the step that resolves disarms the watcher, the heartbeat interval and
the timeout timer and runs cleanup within that same step, before control
returns to the event loop.  However cleanup is only *at least* once, not
exactly once: an answer read in flight when another trigger fires re-runs
`cleanupAndResolve` (see the counterexample); the repeat is harmless
because cleanup is idempotent best-effort deletion and `resolve` is
idempotent. -/
theorem c1_single_outcome (s s2 : CoordState) (e : TEvent) (r : String)
    (h : step s e = some s2) :
    (s.resolvedWith = some r → s2.resolvedWith = some r)
    ∧ (s.resolvedWith = none → s2.resolvedWith.isSome = true →
        s2.watcherArmed = false ∧ s2.intervalArmed = false
          ∧ s2.timeoutArmed = false ∧ s2.cleanupRuns = s.cleanupRuns + 1
          ∧ allChannelsRemoved s2) := by
  constructor
  · exact fun hr => step_outcome_stable s s2 e r h hr
  · intro hnone hsome
    rcases step_shape s s2 e h with hf | ⟨q, hq⟩
    · rw [hf.1, hnone] at hsome; simp at hsome
    · simp only [resolvedLike] at hq
      exact ⟨hq.2.2.2.1, hq.2.2.2.2.1, hq.2.2.2.2.2, hq.2.2.1, hq.2.1⟩

/-- Witness for C1 amended: the timeout firing on the freshly armed
session disarms everything and cleans up in the same step. -/
theorem c1_single_outcome_witness :
    (cleanupAndResolve "" armedState).watcherArmed = false
    ∧ (cleanupAndResolve "" armedState).intervalArmed = false
    ∧ (cleanupAndResolve "" armedState).timeoutArmed = false
    ∧ (cleanupAndResolve "" armedState).cleanupRuns
        = armedState.cleanupRuns + 1
    ∧ allChannelsRemoved (cleanupAndResolve "" armedState) :=
  (c1_single_outcome armedState (cleanupAndResolve "" armedState)
    ⟨10000, .timeoutFire⟩ "" (by decide)).2 rfl (by decide)

/-- C2: on every exit path of `getCmdWindowInput` — answer received,
timeout, heartbeat loss, process exit/error, and every setup failure
including the Resolver finding no terminal (`terminalCmd = none`) before
any process starts — deletion of the options, answer and heartbeat channel
files has been attempted by the time the session is resolved. -/
theorem c2_channels_removed (writeOk : Bool) (terminalCmd : Option LaunchSpec)
    (spawnOk : Bool) (tr : List TEvent) (s : CoordState)
    (h : getCmdWindowInputRun writeOk terminalCmd spawnOk tr = some s)
    (hres : s.resolvedWith.isSome = true) :
    allChannelsRemoved s := by
  have hsetup : allChannelsRemoved setupFailedState := ⟨rfl, rfl, rfl⟩
  unfold getCmdWindowInputRun at h
  by_cases hw : writeOk = true
  · rw [if_pos hw] at h
    rcases terminalCmd with _ | spec
    · obtain rfl := Option.some.inj h
      exact hsetup
    · by_cases hsp : spawnOk = true
      · rw [if_pos hsp] at h
        exact runTrace_clean_inv tr armedState s h
          (fun hcontra => absurd hcontra (by decide)) hres
      · rw [if_neg hsp] at h
        obtain rfl := Option.some.inj h
        exact hsetup
  · rw [if_neg hw] at h
    obtain rfl := Option.some.inj h
    exact hsetup

/-- Witness for C2 at the earliest failure: options written, Resolver
returns no terminal, empty trace. -/
theorem c2_channels_removed_witness :
    getCmdWindowInputRun true none true [] = some setupFailedState
    ∧ allChannelsRemoved setupFailedState :=
  ⟨by decide,
   c2_channels_removed true none true [] setupFailedState (by decide)
     (by decide)⟩

lemma resolvesEmpty_of_cleanup (s s0 : CoordState) (e : TEvent)
    (hstep : step s e = some (cleanupAndResolve "" s0))
    (hres : s.resolvedWith = none) (hruns : s0.cleanupRuns = s.cleanupRuns)
    (hrw : s0.resolvedWith = s.resolvedWith) :
    resolvesEmptyFrom s e := by
  refine ⟨cleanupAndResolve "" s0, hstep, ?_, ?_,
    (cleanupAndResolve_spec "" s0).2.1⟩
  · rw [(cleanupAndResolve_spec "" s0).1, hrw, hres]
  · rw [(cleanupAndResolve_spec "" s0).2.2.1, hruns]

/-- C3: the operation never surfaces an exception — every fallible phase
is modelled total and every failure converges on an empty-string
resolution after cleanup.  Setup failures (options-write failure, the
Resolver finding no terminal, spawn throwing) produce the
`setupFailedState`, which is resolved with `""` with all three channel
removals attempted; and from any yet-unresolved state, every runtime
failure event (answer read failure, stale heartbeat, heartbeat lost or
never appeared after the grace period, other heartbeat inspection error,
timeout, nonzero process exit, process error) resolves the session with
`""` and runs the Janitor in the same step. -/
theorem c3_failures_resolve_empty :
    (∀ (writeOk : Bool) (terminalCmd : Option LaunchSpec) (spawnOk : Bool)
        (tr : List TEvent),
      writeOk = false ∨ terminalCmd = none ∨ spawnOk = false →
        getCmdWindowInputRun writeOk terminalCmd spawnOk tr
          = some setupFailedState)
    ∧ setupFailedState.resolvedWith = some ""
    ∧ allChannelsRemoved setupFailedState
    ∧ setupFailedState.cleanupRuns = 1
    ∧ (∀ (s : CoordState) (e : TEvent), s.resolvedWith = none →
        isFailureEvent s e = true → resolvesEmptyFrom s e) := by
  refine ⟨?_, by decide, ⟨rfl, rfl, rfl⟩, by decide, ?_⟩
  · rintro wo tc so tr (hwo | htc | hso)
    · subst hwo; simp [getCmdWindowInputRun]
    · subst htc; cases wo <;> simp [getCmdWindowInputRun]
    · subst hso
      cases wo <;> rcases tc with _ | spec <;> simp [getCmdWindowInputRun]
  · intro s e hres hfail
    obtain ⟨t, ev⟩ := e
    cases ev with
    | watchEvent ty => simp [isFailureEvent] at hfail
    | readDone data => simp [isFailureEvent] at hfail
    | readFail =>
        simp only [isFailureEvent, decide_eq_true_eq] at hfail
        refine resolvesEmpty_of_cleanup s
          { s with pendingReads := s.pendingReads - 1 } _ ?_ hres rfl rfl
        simp only [step]
        rw [if_pos hfail]
    | pollStat r =>
        cases r with
        | found ageMs =>
            simp only [isFailureEvent, decide_eq_true_eq] at hfail
            refine resolvesEmpty_of_cleanup s s _ ?_ hres rfl rfl
            simp only [step]
            rw [if_pos hfail.1, if_pos hfail.2]
        | enoent =>
            simp only [isFailureEvent, decide_eq_true_eq] at hfail
            by_cases hseen : s.heartbeatFileSeen = true
            · refine resolvesEmpty_of_cleanup s s _ ?_ hres rfl rfl
              simp only [step]
              rw [if_pos hfail.1, if_pos hseen]
            · have ht : t > 7000 := by
                rcases hfail.2 with h2 | h2
                · exact absurd h2 hseen
                · exact h2
              refine resolvesEmpty_of_cleanup s s _ ?_ hres rfl rfl
              simp only [step]
              rw [if_pos hfail.1, if_neg hseen, if_pos ht]
        | otherError =>
            simp only [isFailureEvent, decide_eq_true_eq] at hfail
            refine resolvesEmpty_of_cleanup s s _ ?_ hres rfl rfl
            simp only [step]
            rw [if_pos hfail]
    | timeoutFire =>
        simp only [isFailureEvent, decide_eq_true_eq] at hfail
        refine resolvesEmpty_of_cleanup s s _ ?_ hres rfl rfl
        simp only [step]
        rw [if_pos hfail]
    | procExit code =>
        simp only [isFailureEvent, decide_eq_true_eq] at hfail
        refine resolvesEmpty_of_cleanup s s _ ?_ hres rfl rfl
        simp only [step]
        rw [if_pos hfail]
    | procError =>
        simp only [isFailureEvent, decide_eq_true_eq] at hfail
        refine resolvesEmpty_of_cleanup s s _ ?_ hres rfl rfl
        simp only [step]
        rw [if_pos hfail]

/-- Witness for C3: the Resolver finding no terminal resolves the session
with the empty answer. -/
theorem c3_failures_resolve_empty_witness :
    getCmdWindowInputRun true none true [] = some setupFailedState
    ∧ setupFailedState.resolvedWith = some "" :=
  ⟨c3_failures_resolve_empty.1 true none true [] (Or.inr (Or.inl rfl)),
   c3_failures_resolve_empty.2.1⟩

/-- C4, claim as stated is false: the watcher checks the *untrimmed*
contents for emptiness (`if (data)`), so whitespace-only content — empty
after trimming — still resolves the session (with the empty trimmed
value), contradicting the claimed "resolves iff non-empty after trimming".
Concretely, a change event followed by a read returning `" "` resolves
the session. -/
theorem c4_counterexample :
    jsTrim " " = ""
    ∧ runTrace armedState [⟨100, .watchEvent "change"⟩, ⟨200, .readDone " "⟩]
      = some { watcherArmed := false, intervalArmed := false,
               timeoutArmed := false, heartbeatFileSeen := false,
               pendingReads := 0,
               optionsRemoveAttempted := true, answerRemoveAttempted := true,
               heartbeatRemoveAttempted := true,
               resolvedWith := some "", resolveCalls := 1,
               cleanupRuns := 1 } := by
  constructor
  · decide
  · decide

/-- C4 amended: on a change event the watcher reads the full contents and
resolves with the surrounding-whitespace-trimmed value if and only if the
contents are non-empty *before* trimming (whitespace-only content therefore
resolves with the empty answer); content `"  yes \n"` resolves the session
to `"yes"`; a read failure resolves with the empty answer. -/
theorem c4_watcher_resolution (s : CoordState) (t : Nat) (data : String)
    (hres : s.resolvedWith = none) (hpend : s.pendingReads > 0) :
    (data ≠ "" → ∃ s2, step s ⟨t, .readDone data⟩ = some s2
        ∧ s2.resolvedWith = some (jsTrim data))
    ∧ (data = "" → step s ⟨t, .readDone data⟩
        = some { s with pendingReads := s.pendingReads - 1 })
    ∧ (∃ s2, step s ⟨t, .readFail⟩ = some s2 ∧ s2.resolvedWith = some "")
    ∧ jsTrim "  yes \n" = "yes" := by
  refine ⟨?_, ?_, ?_, by decide⟩
  · intro hdata
    refine ⟨cleanupAndResolve (jsTrim data)
      { s with pendingReads := s.pendingReads - 1 }, ?_, ?_⟩
    · simp only [step]
      rw [if_pos hpend, if_pos hdata]
    · rw [(cleanupAndResolve_spec (jsTrim data)
        { s with pendingReads := s.pendingReads - 1 }).1]
      simp [hres]
  · intro hdata
    subst hdata
    simp only [step]
    rw [if_pos hpend]
    simp
  · refine ⟨cleanupAndResolve ""
      { s with pendingReads := s.pendingReads - 1 }, ?_, ?_⟩
    · simp only [step]
      rw [if_pos hpend]
    · rw [(cleanupAndResolve_spec ""
        { s with pendingReads := s.pendingReads - 1 }).1]
      simp [hres]

/-- Witness for C4 amended: the documented example content. -/
theorem c4_watcher_resolution_witness :
    jsTrim "  yes \n" = "yes" :=
  (c4_watcher_resolution { armedState with pendingReads := 1 } 100 "  yes \n"
    rfl (by decide)).2.2.2

/-- C5: with the heartbeat channel never created (every poll observes
`ENOENT`) and the timer not yet fired, a poll at or before the 7000 ms
grace period leaves the session completely unchanged, while the first
scheduled poll strictly past the grace period — `firstGracePoll`, which
lies in the window `(7000, 8500]` (grace plus one 1500 ms interval) for
any setup delay up to the grace period — resolves the session with the
empty answer; `firstGracePoll` is on the poll schedule and is the earliest
scheduled poll past the grace period. -/
theorem c5_heartbeat_grace (c : Config) (s : CoordState)
    (hd : c.setupDelay ≤ 7000) (hres : s.resolvedWith = none)
    (hseen : s.heartbeatFileSeen = false) (hint : s.intervalArmed = true) :
    (∀ t, t ≤ 7000 → step s ⟨t, .pollStat .enoent⟩ = some s)
    ∧ (∃ s2, step s ⟨firstGracePoll c, .pollStat .enoent⟩ = some s2
        ∧ s2.resolvedWith = some "")
    ∧ 7000 < firstGracePoll c
    ∧ firstGracePoll c ≤ 8500
    ∧ isPollTime c (firstGracePoll c) = true
    ∧ (∀ t, isPollTime c t = true → 7000 < t → firstGracePoll c ≤ t) := by
  have hseen2 : ¬s.heartbeatFileSeen = true := by simp [hseen]
  have hgt : 7000 < firstGracePoll c := by
    simp only [firstGracePoll]
    omega
  refine ⟨?_, ?_, hgt, ?_, ?_, ?_⟩
  · intro t ht
    simp only [step]
    rw [if_pos hint, if_neg hseen2, if_neg (by omega)]
  · refine ⟨cleanupAndResolve "" s, ?_, ?_⟩
    · simp only [step]
      rw [if_pos hint, if_neg hseen2, if_pos hgt]
    · rw [(cleanupAndResolve_spec "" s).1, hres]
  · simp only [firstGracePoll]
    omega
  · simp only [isPollTime, firstGracePoll, decide_eq_true_eq]
    omega
  · intro t hpoll h7
    simp only [isPollTime, decide_eq_true_eq] at hpoll
    simp only [firstGracePoll]
    omega

/-- Witness for C5 with a 500 ms setup delay: the first poll past the
grace period is at 8000 ms, inside `(7000, 8500]`, and on schedule. -/
theorem c5_heartbeat_grace_witness :
    7000 < firstGracePoll { timeoutSeconds := 600, setupDelay := 500 }
    ∧ firstGracePoll { timeoutSeconds := 600, setupDelay := 500 } ≤ 8500
    ∧ isPollTime { timeoutSeconds := 600, setupDelay := 500 }
        (firstGracePoll { timeoutSeconds := 600, setupDelay := 500 })
      = true := by
  have h := c5_heartbeat_grace { timeoutSeconds := 600, setupDelay := 500 }
    armedState (by decide) rfl rfl rfl
  exact ⟨h.2.2.1, h.2.2.2.1, h.2.2.2.2.1⟩

/-- C6: the timeout trigger is a single-shot timer with delay
`timeoutSeconds * 1000 + 5000` from the moment the triggers are armed (the
session-start instant plus the setup delay): in every deliverable trace a
`timeoutFire` event occurs only at exactly that instant and never before;
firing it on a yet-unresolved armed session resolves with the empty answer
and disarms the timer (so it cannot fire again); and with
`timeoutSeconds = 5` and no setup delay the firing instant is 10000 ms
(10 time-units), not before. -/
theorem c6_timeout_trigger (c : Config) (tr : List TEvent) (s : CoordState)
    (t : Nat) (hv : validTrace c tr = true) :
    (∀ e ∈ tr, e.ev = Ev.timeoutFire → e.time = timeoutFireTime c)
    ∧ (s.timeoutArmed = true → s.resolvedWith = none →
        ∃ s2, step s ⟨t, .timeoutFire⟩ = some s2
          ∧ s2.resolvedWith = some "" ∧ s2.timeoutArmed = false)
    ∧ (s.timeoutArmed = false → step s ⟨t, .timeoutFire⟩ = none)
    ∧ timeoutFireTime c = c.setupDelay + c.timeoutSeconds * 1000 + 5000
    ∧ timeoutFireTime { timeoutSeconds := 5, setupDelay := 0 } = 10000 := by
  refine ⟨?_, ?_, ?_, rfl, rfl⟩
  · intro e he hev
    have hall : ∀ e2 ∈ tr, evTimeOK c e2 = true := by
      simp only [validTrace, Bool.and_eq_true, List.all_eq_true] at hv
      exact hv.1
    have h2 := hall e he
    obtain ⟨tt, ev⟩ := e
    simp only at hev
    subst hev
    simp only [evTimeOK, decide_eq_true_eq] at h2
    exact h2
  · intro harm hres
    refine ⟨cleanupAndResolve "" s, ?_, ?_,
      (cleanupAndResolve_spec "" s).2.2.2.2.2⟩
    · simp only [step]
      rw [if_pos harm]
    · rw [(cleanupAndResolve_spec "" s).1, hres]
  · intro harm
    simp only [step]
    rw [if_neg (by simp [harm])]

/-- Witness for C6 on the trace containing exactly the timer firing at its
10000 ms schedule for `timeoutSeconds = 5`. -/
theorem c6_timeout_trigger_witness :
    timeoutFireTime { timeoutSeconds := 5, setupDelay := 0 } = 10000 :=
  (c6_timeout_trigger { timeoutSeconds := 5, setupDelay := 0 }
    [⟨10000, .timeoutFire⟩] armedState 10000 (by decide)).2.2.2.2

/-- C10: a change event on the answer channel whose subsequent read yields
the empty string leaves the session state completely unchanged — no
resolution, no cleanup, and the watcher, heartbeat interval and timeout
timer all still armed exactly as before (the two events return the state
to precisely its prior value). -/
theorem c10_empty_read_frame (s : CoordState) (t t2 : Nat)
    (hw : s.watcherArmed = true) :
    runTrace s [⟨t, .watchEvent "change"⟩, ⟨t2, .readDone ""⟩] = some s := by
  obtain ⟨w, i, tm, hb, pr, o1, o2, o3, rwv, rc, cr⟩ := s
  simp only [CoordState.watcherArmed] at hw
  subst hw
  simp [runTrace, step]

/-- Witness for C10 on the freshly armed session. -/
theorem c10_empty_read_frame_witness :
    runTrace armedState [⟨100, .watchEvent "change"⟩, ⟨200, .readDone ""⟩]
      = some armedState :=
  c10_empty_read_frame armedState 100 200 rfl

end InteractiveMcp
